import Mathlib

/-!
Verification of `k8s-events-to-slack-streamer.py` against its specification.

The file shallowly embeds the Python source: the process environment is a
partial map from variable names to strings, Python exceptions are an error
type threaded through `Except`, `json.dumps` is modelled by a small JSON
value type with a serializer matching Python's default separators, and
`re.search` is modelled by an unanchored Brzozowski-derivative matcher over
a regex AST covering the metacharacters the configuration surface uses
(literal characters, `.` and postfix `*`).
-/

/-- Model of `os.environ`: a partial map from variable names to string values.
An unset variable is `none`; a variable set to the empty string is `some ""`. -/
def Env : Type := String → Option String

/-- Model of the Python exceptions the script can raise: `EnvironmentError`
from `read_env_variable_or_die`, `AttributeError` from calling `.strftime` on a
`None` timestamp, `TypeError` from `re.search(pattern, None)`, and the
`requests` connection-level exceptions escaping `requests.post`. -/
inductive PyErr where
  | environmentError (msg : String)
  | attributeError (msg : String)
  | typeError (msg : String)
  | connectionError (msg : String)
deriving DecidableEq, Repr

/-- Model of `os.environ.get(name, default)` with a string default. -/
def os_environ_get (env : Env) (name : String) (default : String) : String :=
  (env name).getD default

/-- Embeds `read_env_variable_or_die` (source lines 15-21): read the variable
with default `''`; if the result is the empty string, raise `EnvironmentError`
with a message naming the variable, otherwise return the value. -/
def read_env_variable_or_die (env : Env) (env_var_name : String) : Except PyErr String :=
  let value := os_environ_get env env_var_name ""
  if value = "" then
    .error (.environmentError ("Env variable " ++ env_var_name ++
      " is not defined or set to empty string. Set it to non-empty string and try again"))
  else
    .ok value

/-- Embeds `cluster_name` (source lines 37-38): die unless
`K8S_EVENTS_STREAMER_CLUSTER_NAME` is set to a non-empty string. -/
def cluster_name (env : Env) : Except PyErr String :=
  read_env_variable_or_die env "K8S_EVENTS_STREAMER_CLUSTER_NAME"

/-- Model of a `datetime` value carried by a Kubernetes event. Only the
components consumed by the format string `'%d/%m/%Y %H:%M:%S %Z'` are kept;
`tzname` is the `%Z` rendering (empty for a naive datetime). -/
structure Datetime where
  year : Nat
  month : Nat
  day : Nat
  hour : Nat
  minute : Nat
  second : Nat
  tzname : String
deriving DecidableEq, Repr

/-- Zero-pads a numeral to two digits, as `%d`, `%m`, `%H`, `%M`, `%S` do. -/
def pad2 (n : Nat) : String :=
  if n < 10 then "0" ++ toString n else toString n

/-- Zero-pads a numeral to four digits, as `%Y` does for the years at hand. -/
def pad4 (n : Nat) : String :=
  if n < 10 then "000" ++ toString n
  else if n < 100 then "00" ++ toString n
  else if n < 1000 then "0" ++ toString n
  else toString n

/-- Embeds `.strftime('%d/%m/%Y %H:%M:%S %Z')` on a present datetime. -/
def Datetime.strftime_dmy_hms_z (d : Datetime) : String :=
  pad2 d.day ++ "/" ++ pad2 d.month ++ "/" ++ pad4 d.year ++ " " ++
    pad2 d.hour ++ ":" ++ pad2 d.minute ++ ":" ++ pad2 d.second ++ " " ++ d.tzname

/-- Calling `.strftime(...)` on an event timestamp: a missing (`None`)
timestamp raises `AttributeError`, exactly as Python's attribute access on
`None` does; a present one formats. -/
def pyStrftime (d : Option Datetime) : Except PyErr String :=
  match d with
  | some dt => .ok dt.strftime_dmy_hms_z
  | none => .error (.attributeError "NoneType object has no attribute strftime")

/-- JSON values, as `json.dumps` consumes them. The script itself only ever
builds strings, `None`, numbers, arrays and insertion-ordered dicts; the
`bool` constructor is the value a Python boolean would serialize to, kept so
the model can distinguish the string `'true'` from the boolean `True`. -/
inductive Json where
  | str (s : String)
  | num (n : Nat)
  | bool (b : Bool)
  | null
  | arr (elems : List Json)
  | obj (members : List (String × Json))

/-- Escapes one character the way `json.dumps` escapes it inside a string
literal (the script's strings only ever need the quote, backslash and the
common control characters). -/
def escapeChar (c : Char) : String :=
  if c = '"' then "\\\""
  else if c = '\\' then "\\\\"
  else if c = '\n' then "\\n"
  else if c = '\t' then "\\t"
  else if c = '\r' then "\\r"
  else String.singleton c

/-- Escapes a whole string for a JSON string literal. -/
def escapeString (s : String) : String :=
  String.join (s.data.map escapeChar)

mutual

/-- Embeds `json.dumps` with Python's default separators `', '` and `': '`:
dict members serialize in insertion order, strings are double-quoted. -/
def Json.dumps : Json → String
  | .str s => "\"" ++ escapeString s ++ "\""
  | .num n => toString n
  | .bool b => if b then "true" else "false"
  | .null => "null"
  | .arr elems => "[" ++ Json.dumpsElems elems ++ "]"
  | .obj members => "\x7b" ++ Json.dumpsMembers members ++ "\x7d"

/-- Serializes the elements of a JSON array, comma-separated. -/
def Json.dumpsElems : List Json → String
  | [] => ""
  | [x] => Json.dumps x
  | x :: y :: rest => Json.dumps x ++ ", " ++ Json.dumpsElems (y :: rest)

/-- Serializes the members of a JSON object, comma-separated, keys quoted. -/
def Json.dumpsMembers : List (String × Json) → String
  | [] => ""
  | [(k, v)] => "\"" ++ escapeString k ++ "\": " ++ Json.dumps v
  | (k, v) :: m :: rest =>
      "\"" ++ escapeString k ++ "\": " ++ Json.dumps v ++ ", " ++
        Json.dumpsMembers (m :: rest)

end

/-- Looks a key up in an insertion-ordered JSON object member list. -/
def lookupKey : List (String × Json) → String → Option Json
  | [], _ => none
  | (k', v) :: rest, k => if k' = k then some v else lookupKey rest k

/-- Reads a top-level key of a JSON object (`none` on non-objects). -/
def Json.getKey : Json → String → Option Json
  | .obj members, k => lookupKey members k
  | _, _ => none

/-- Extracts the first element of the `attachments` array of a message. -/
def firstAttachment (j : Json) : Option Json :=
  match j.getKey "attachments" with
  | some (.arr (a :: _)) => some a
  | _ => none

/-- Regex AST covering the constructs the script's blacklist patterns use
with Python's `re` module: literal characters, the `.` wildcard and a
postfix `*`; concatenation, alternation and the empty word close the
derivative computation. -/
inductive Regex where
  | emptyset
  | epsilon
  | char (c : Char)
  | dot
  | cat (r1 r2 : Regex)
  | alt (r1 r2 : Regex)
  | star (r : Regex)
deriving DecidableEq, Repr

/-- Whether a regex accepts the empty word. -/
def Regex.nullable : Regex → Bool
  | .emptyset => false
  | .epsilon => true
  | .char _ => false
  | .dot => false
  | .cat r1 r2 => r1.nullable && r2.nullable
  | .alt r1 r2 => r1.nullable || r2.nullable
  | .star _ => true

/-- Brzozowski derivative of a regex by one character. -/
def Regex.deriv : Regex → Char → Regex
  | .emptyset, _ => .emptyset
  | .epsilon, _ => .emptyset
  | .char c, a => if c = a then .epsilon else .emptyset
  | .dot, _ => .epsilon
  | .cat r1 r2, a =>
      if r1.nullable then .alt (.cat (r1.deriv a) r2) (r2.deriv a)
      else .cat (r1.deriv a) r2
  | .alt r1 r2, a => .alt (r1.deriv a) (r2.deriv a)
  | .star r, a => .cat (r.deriv a) (.star r)

/-- Whether a regex matches some prefix of the character list (possibly the
empty prefix). This is how a regex engine decides a match anchored at one
starting position without requiring it to span the whole input. -/
def Regex.matchesFromHere : Regex → List Char → Bool
  | r, [] => r.nullable
  | r, c :: rest => r.nullable || (r.deriv c).matchesFromHere rest

/-- Embeds the truth of `re.search(pattern, s) != None`: unanchored search,
succeeding iff the pattern matches starting at SOME position of the string
(a partial match anywhere suffices; no full-match requirement). -/
def Regex.research : Regex → List Char → Bool
  | r, [] => r.nullable
  | r, c :: rest => r.matchesFromHere (c :: rest) || r.research rest

/-- String-level wrapper for `re.search(pattern, s) != None`. -/
def re_search (r : Regex) (s : String) : Bool :=
  r.research s.data

/-- Compiles a pattern string left to right: `.` is the wildcard, a `*`
applies to the preceding atom, every other character is a literal. This
models `re` compilation for the pattern subset the configuration uses. -/
def re_compile_chars : Regex → List Char → Regex
  | acc, [] => acc
  | acc, c :: '*' :: rest =>
      re_compile_chars (.cat acc (.star (if c = '.' then .dot else .char c))) rest
  | acc, c :: rest =>
      re_compile_chars (.cat acc (if c = '.' then .dot else .char c)) rest

/-- Compiles a blacklist pattern string to the regex AST. -/
def re_compile (pattern : String) : Regex :=
  re_compile_chars .epsilon pattern.data

/-- Model of the `involvedObject` record of a Kubernetes event; a field the
API left unset is `none`. `namespace_name` embeds the `namespace` attribute
(`namespace` is reserved in Lean). -/
structure InvolvedObject where
  namespace_name : Option String
  kind : Option String
deriving DecidableEq, Repr

/-- Model of the `metadata` record of a Kubernetes event object. -/
structure ObjectMeta where
  name : Option String
  creation_timestamp : Option Datetime
deriving DecidableEq, Repr

/-- Model of the `V1Event` object embedded in a watch event: exactly the
attributes the script consumes, each `none` when absent on the wire. -/
structure EventObject where
  metadata : ObjectMeta
  involved_object : InvolvedObject
  reason : Option String
  message : Option String
  first_timestamp : Option Datetime
  last_timestamp : Option Datetime
  count : Option Nat
  type : Option String
deriving DecidableEq, Repr

/-- Model of one raw watch event `{'type': ..., 'object': ...}`: the watch
wrapper type (`ADDED`, `MODIFIED`, `DELETED`) and the event object. -/
structure RawEvent where
  type : String
  object : EventObject
deriving DecidableEq, Repr

/-- Embeds `event_entity_name` (source lines 28-29): the plain attribute
access `event['object'].metadata.name`, which yields `None` (not an error)
when the name is absent. -/
def event_entity_name (event : RawEvent) : Option String :=
  event.object.metadata.name

/-- Embeds `is_message_type_delete` (source lines 31-32). -/
def is_message_type_delete (event : RawEvent) : Bool :=
  event.type = "DELETED"

/-- Embeds `is_reason_in_skip_list` (source lines 34-35): Python's
`None in skip_list` is `False` for a list of strings, so an absent reason is
never in the skip list. -/
def is_reason_in_skip_list (event : RawEvent) (skip_list : List String) : Bool :=
  match event.object.reason with
  | some r => skip_list.contains r
  | none => false

/-- Converts a possibly-absent string to the JSON value `json.dumps` would
serialize for it when used as a dict value (`None` becomes `null`). -/
def jsonOfOptStr : Option String → Json
  | some s => .str s
  | none => .null

/-- Embeds `'{}'.format(x)` for a possibly-absent string: `str(None)` is the
four-character string `None`. -/
def pyFormatStr : Option String → String
  | some s => s
  | none => "None"

/-- Embeds `'{}'.format(x)` for a possibly-absent count. -/
def pyFormatNat : Option Nat → String
  | some n => toString n
  | none => "None"

/-- Embeds `field_format` (source lines 40-45): note `short` is the literal
STRING `'true'`, not a boolean. -/
def field_format (key : String) (value : Json) : Json :=
  .obj [("title", .str key), ("value", value), ("short", .str "true")]

/-- Builds the message value of `format_k8s_event_to_slack_message` (source
lines 47-71) before `json.dumps`. Evaluation order follows the source: the
`fields_data` dict evaluates `creation_timestamp.strftime` first, then the
message dict evaluates `cluster_name()` in `text` and the two footer
timestamps. The attachment `color` purifies the initial `'#36a64f'` plus the
line 67 reassignment on `event.type == 'Warning'`. Line 69 assigns
`message['text']` — a NEW top-level dict key (appended in insertion order),
NOT the attachment's `text` — and the embedding preserves exactly that. -/
def format_k8s_event_to_slack_message_json (env : Env) (event_object : RawEvent)
    (notify : String) : Except PyErr Json :=
  let event := event_object.object
  match pyStrftime event.metadata.creation_timestamp with
  | .error e => .error e
  | .ok creation =>
  match cluster_name env with
  | .error e => .error e
  | .ok cname =>
  match pyStrftime event.first_timestamp with
  | .error e => .error e
  | .ok first_seen =>
  match pyStrftime event.last_timestamp with
  | .error e => .error e
  | .ok last_seen =>
  let fields_data : List (String × Json) :=
    [("Namespace", jsonOfOptStr event.involved_object.namespace_name),
     ("Name", jsonOfOptStr event.metadata.name),
     ("Creation", .str creation),
     ("Kind", jsonOfOptStr event.involved_object.kind)]
  let attachment : List (String × Json) :=
    [("color", .str (if event.type = some "Warning" then "#cc4d26" else "#36a64f")),
     ("title", jsonOfOptStr event.message),
     ("text", .str (cname ++ " - event type: " ++ event_object.type ++
        ", event reason: " ++ pyFormatStr event.reason)),
     ("footer", .str ("First time seen: " ++ first_seen ++ ", Last time seen: " ++
        last_seen ++ ", Count: " ++ pyFormatNat event.count)),
     ("fields", .arr (fields_data.map (fun kv => field_format kv.1 kv.2)))]
  let message : List (String × Json) := [("attachments", .arr [.obj attachment])]
  let message :=
    if event.type = some "Warning" ∧ notify ≠ "" then
      message ++ [("text", .str (notify ++ " there is a warning for you to check"))]
    else message
  .ok (.obj message)

/-- Embeds `format_k8s_event_to_slack_message` end to end: the message value
serialized by `json.dumps` (source line 71). -/
def format_k8s_event_to_slack_message (env : Env) (event_object : RawEvent)
    (notify : String) : Except PyErr String :=
  match format_k8s_event_to_slack_message_json env event_object notify with
  | .ok j => .ok j.dumps
  | .error e => .error e

/-- Model of the configuration `main` assembles on lines 81-86.
`skip_delete_events` keeps the raw `os.environ.get(..., False)` result:
`none` is the Python default `False` and `some s` is the raw string value —
`main` never parses it as a boolean. -/
structure Config where
  k8s_namespace_name : String
  skip_delete_events : Option String
  reasons_to_skip : List String
  users_to_notify : String
  slack_web_hook_url : String
  entity_blacklist : List Regex

/-- Splits a character list on whitespace, dropping empty pieces; `acc` holds
the current piece reversed. -/
def splitWsAux : List Char → List Char → List String
  | [], acc => if acc.isEmpty then [] else [String.mk acc.reverse]
  | c :: rest, acc =>
      if c = ' ' ∨ c = '\t' ∨ c = '\n' then
        (if acc.isEmpty then [] else [String.mk acc.reverse]) ++ splitWsAux rest []
      else splitWsAux rest (c :: acc)

/-- Embeds Python's argumentless `str.split()`: split on whitespace and drop
empty pieces, so `''.split() == []`. -/
def py_split_ws (s : String) : List String :=
  splitWsAux s.data []

/-- Embeds the configuration-reading prefix of `main` (source lines 81-86):
every value except the webhook URL is read with a non-fatal default; the
webhook URL goes through `read_env_variable_or_die`; blacklist patterns are
compiled from the space-separated variable. The cluster name is NOT read
here — `main` never touches it; only the formatter does, per event. -/
def readConfig (env : Env) : Except PyErr Config :=
  let k8s_namespace_name := os_environ_get env "K8S_EVENTS_STREAMER_NAMESPACE" "default"
  let skip_delete_events := env "K8S_EVENTS_STREAMER_SKIP_DELETE_EVENTS"
  let reasons_to_skip :=
    py_split_ws (os_environ_get env "K8S_EVENTS_STREAMER_LIST_OF_REASONS_TO_SKIP" "")
  let users_to_notify := os_environ_get env "K8S_EVENTS_STREAMER_USERS_TO_NOTIFY" ""
  match read_env_variable_or_die env "K8S_EVENTS_STREAMER_INCOMING_WEB_HOOK_URL" with
  | .error e => .error e
  | .ok slack_web_hook_url =>
    let entity_blacklist :=
      (py_split_ws (os_environ_get env "K8S_EVENTS_STREAMER_ENTITY_BLACKLIST" "")).map re_compile
    .ok { k8s_namespace_name, skip_delete_events, reasons_to_skip,
          users_to_notify, slack_web_hook_url, entity_blacklist }

/-- Embeds the guard `skip_delete_events != False` (source line 96): any
string value — `'false'`, `'0'`, even the empty string — compares unequal to
the Python boolean `False`; only the unset default compares equal. -/
def skip_delete_enabled (skip_delete_events : Option String) : Bool :=
  skip_delete_events.isSome

/-- Embeds the blacklist loop of `main` (source lines 103-107): every
pattern is searched against the entity name; `re.search(pattern, None)`
raises `TypeError`, so an absent name faults as soon as one pattern exists. -/
def blacklistCheck (patterns : List Regex) (entity_name : Option String) :
    Except PyErr Bool :=
  match patterns with
  | [] => .ok false
  | p :: rest =>
    match entity_name with
    | none => .error (.typeError "expected string or bytes-like object, got NoneType")
    | some nm =>
      match blacklistCheck rest (some nm) with
      | .error e => .error e
      | .ok matched_rest => .ok (re_search p nm || matched_rest)

/-- The filter chain of the loop body (source lines 96-109), in source
order with short-circuit: the DELETED/skip check, then the reason skip
list, then the entity-name blacklist. Returns `true` to accept the event
for formatting and delivery, `false` to skip it. -/
def filter_chain (cfg : Config) (event : RawEvent) : Except PyErr Bool :=
  if is_message_type_delete event && skip_delete_enabled cfg.skip_delete_events then
    .ok false
  else if is_reason_in_skip_list event cfg.reasons_to_skip then
    .ok false
  else
    match blacklistCheck cfg.entity_blacklist (event_entity_name event) with
    | .error e => .error e
    | .ok matched_blacklist => .ok (!matched_blacklist)

/-- Embeds `post_slack_message` (source lines 23-26): the POST result comes
from the network (`net` maps the message body to the outcome of
`requests.post`); there is no `try/except`, so a raised connection error
propagates, and a received response `r` is ignored — no status check. -/
def post_slack_message (net : String → Except PyErr Unit) (message : String) :
    Except PyErr Unit :=
  match net message with
  | .error e => .error e
  | .ok _ => .ok ()

/-- One iteration of the event loop body (source lines 96-111) for one
event: the filter chain, then formatting, then delivery. `ok none` means
the event was filtered out, `ok (some m)` that message `m` was posted; an
`error` is an exception propagating out of the body — nothing catches it. -/
def processEvent (cfg : Config) (env : Env) (net : String → Except PyErr Unit)
    (event : RawEvent) : Except PyErr (Option String) :=
  match filter_chain cfg event with
  | .error e => .error e
  | .ok false => .ok none
  | .ok true =>
    match format_k8s_event_to_slack_message env event cfg.users_to_notify with
    | .error e => .error e
    | .ok message =>
      match post_slack_message net message with
      | .error e => .error e
      | .ok _ => .ok (some message)

/-- Phase of the watch loop (source lines 92-113): `streaming pending` is
the `for` loop over the rest of the current watch stream, `idleWait secs`
is the `time.sleep(30)` after the stream is drained, and `crashed err` is
an uncaught exception escaping `main` — the loop has no handler, so a crash
is absorbing. -/
inductive Phase where
  | streaming (pending : List RawEvent)
  | idleWait (secs : Nat)
  | crashed (err : PyErr)
deriving Repr

/-- State of the watch loop: which `while True` iteration the loop is in
(each iteration opens one watch stream) and the current phase. -/
structure LoopState where
  iteration : Nat
  phase : Phase

/-- One small step of the watch loop (source lines 92-113). `streams n` is
the sequence of events the watch yields in iteration `n`. A drained stream
goes to the fixed 30-second sleep; the sleep re-opens the watch for the
next iteration; a processed event either advances the stream or, when its
processing raises, crashes the loop. -/
def watchStep (streams : Nat → List RawEvent) (cfg : Config) (env : Env)
    (net : String → Except PyErr Unit) : LoopState → LoopState
  | ⟨n, .streaming []⟩ => ⟨n, .idleWait 30⟩
  | ⟨n, .streaming (e :: rest)⟩ =>
    match processEvent cfg env net e with
    | .ok _ => ⟨n, .streaming rest⟩
    | .error err => ⟨n, .crashed err⟩
  | ⟨n, .idleWait _⟩ => ⟨n + 1, .streaming (streams (n + 1))⟩
  | ⟨n, .crashed err⟩ => ⟨n, .crashed err⟩

/-- Unfolds the blacklist loop when the entity name is present: no exception
occurs and the result is whether ANY pattern search succeeds. -/
theorem blacklistCheck_some (ps : List Regex) (nm : String) :
    blacklistCheck ps (some nm) = .ok (ps.any (fun p => re_search p nm)) := by
  induction ps with
  | nil => rfl
  | cons p rest ih =>
    simp [blacklistCheck, ih, List.any_cons]

/-- Inversion of a successful formatter run: all four effectful reads
succeeded and the produced JSON value has exactly the shape the source
builds — an `attachments` singleton, plus, for a warning with a non-empty
notify target, an appended top-level `text` member. -/
theorem format_json_ok_inv (env : Env) (e : RawEvent) (notify : String) (j : Json)
    (h : format_k8s_event_to_slack_message_json env e notify = .ok j) :
    ∃ creation cname first_seen last_seen,
      pyStrftime e.object.metadata.creation_timestamp = .ok creation ∧
      cluster_name env = .ok cname ∧
      pyStrftime e.object.first_timestamp = .ok first_seen ∧
      pyStrftime e.object.last_timestamp = .ok last_seen ∧
      j = .obj (
        (if e.object.type = some "Warning" ∧ notify ≠ "" then
          [("attachments", Json.arr [.obj
            [("color", .str (if e.object.type = some "Warning" then "#cc4d26" else "#36a64f")),
             ("title", jsonOfOptStr e.object.message),
             ("text", .str (cname ++ " - event type: " ++ e.type ++ ", event reason: " ++ pyFormatStr e.object.reason)),
             ("footer", .str ("First time seen: " ++ first_seen ++ ", Last time seen: " ++ last_seen ++ ", Count: " ++ pyFormatNat e.object.count)),
             ("fields", Json.arr ([("Namespace", jsonOfOptStr e.object.involved_object.namespace_name),
               ("Name", jsonOfOptStr e.object.metadata.name),
               ("Creation", Json.str creation),
               ("Kind", jsonOfOptStr e.object.involved_object.kind)].map (fun kv => field_format kv.1 kv.2)))]])] ++
          [("text", .str (notify ++ " there is a warning for you to check"))]
        else
          [("attachments", Json.arr [.obj
            [("color", .str (if e.object.type = some "Warning" then "#cc4d26" else "#36a64f")),
             ("title", jsonOfOptStr e.object.message),
             ("text", .str (cname ++ " - event type: " ++ e.type ++ ", event reason: " ++ pyFormatStr e.object.reason)),
             ("footer", .str ("First time seen: " ++ first_seen ++ ", Last time seen: " ++ last_seen ++ ", Count: " ++ pyFormatNat e.object.count)),
             ("fields", Json.arr ([("Namespace", jsonOfOptStr e.object.involved_object.namespace_name),
               ("Name", jsonOfOptStr e.object.metadata.name),
               ("Creation", Json.str creation),
               ("Kind", jsonOfOptStr e.object.involved_object.kind)].map (fun kv => field_format kv.1 kv.2)))]])])) := by
  unfold format_k8s_event_to_slack_message_json at h
  dsimp only at h
  split at h
  · exact Except.noConfusion h
  case _ creation hc =>
  split at h
  · exact Except.noConfusion h
  case _ cname hn =>
  split at h
  · exact Except.noConfusion h
  case _ first_seen hf =>
  split at h
  · exact Except.noConfusion h
  case _ last_seen hl =>
  refine ⟨creation, cname, first_seen, last_seen, hc, hn, hf, hl, ?_⟩
  have hj := Except.ok.inj h
  rw [← hj]

/-- Fixed timestamp used by the concrete test events. -/
def dt0 : Datetime := ⟨2020, 5, 17, 9, 30, 5, "UTC"⟩

/-- Environment with the cluster name and webhook URL set. -/
def envFull : Env := fun k =>
  if k = "K8S_EVENTS_STREAMER_CLUSTER_NAME" then some "clusterX"
  else if k = "K8S_EVENTS_STREAMER_INCOMING_WEB_HOOK_URL" then some "http://hook"
  else none

/-- Environment agreeing with `envFull` on the cluster name but differing on
the webhook URL and namespace, for the determinism claim. -/
def env9 : Env := fun k =>
  if k = "K8S_EVENTS_STREAMER_CLUSTER_NAME" then some "clusterX"
  else if k = "K8S_EVENTS_STREAMER_INCOMING_WEB_HOOK_URL" then some "http://other-hook"
  else if k = "K8S_EVENTS_STREAMER_NAMESPACE" then some "kube-system"
  else none

/-- Environment with the webhook URL set but the cluster name UNSET. -/
def env5 : Env := fun k =>
  if k = "K8S_EVENTS_STREAMER_INCOMING_WEB_HOOK_URL" then some "http://hook" else none

/-- Environment with nothing set. -/
def envNone : Env := fun _ => none

/-- Environment that sets `K8S_EVENTS_STREAMER_SKIP_DELETE_EVENTS` to the
string `false`. -/
def envSkip : Env := fun k =>
  if k = "K8S_EVENTS_STREAMER_CLUSTER_NAME" then some "clusterX"
  else if k = "K8S_EVENTS_STREAMER_INCOMING_WEB_HOOK_URL" then some "http://hook"
  else if k = "K8S_EVENTS_STREAMER_SKIP_DELETE_EVENTS" then some "false"
  else none

/-- A well-formed non-warning event (the end-to-end scenario of the spec). -/
def normalEvent : RawEvent :=
  { type := "MODIFIED",
    object := { metadata := { name := some "web-1", creation_timestamp := some dt0 },
                involved_object := { namespace_name := some "default", kind := some "Pod" },
                reason := some "Scheduled", message := some "Pod scheduled",
                first_timestamp := some dt0, last_timestamp := some dt0,
                count := some 3, type := some "Normal" } }

/-- A well-formed Warning-type event. -/
def warnEvent : RawEvent :=
  { type := "MODIFIED",
    object := { metadata := { name := some "web-1", creation_timestamp := some dt0 },
                involved_object := { namespace_name := some "default", kind := some "Pod" },
                reason := some "FailedScheduling", message := some "Pod warning",
                first_timestamp := some dt0, last_timestamp := some dt0,
                count := some 3, type := some "Warning" } }

/-- The normal event as a DELETED watch notification. -/
def deletedEvent : RawEvent := { normalEvent with type := "DELETED" }

/-- A malformed event: `object.metadata.name` is absent. -/
def namelessEvent : RawEvent :=
  { normalEvent with
    object := { normalEvent.object with
                metadata := { name := none, creation_timestamp := some dt0 } } }

/-- Network oracle for a webhook that accepts every POST. -/
def netOk : String → Except PyErr Unit := fun _ => .ok ()

/-- Network oracle for an unreachable webhook: every POST raises a
connection error, as `requests.post` does on a refused connection. -/
def netFail : String → Except PyErr Unit := fun _ => .error (.connectionError "connection refused")

/-- Watch streams that never yield an event. -/
def streams1 : Nat → List RawEvent := fun _ => []

/-- The configuration `readConfig` produces from `env5` (and, except for the
webhook URL, from `envFull` and `envNone` too): everything defaulted. -/
def cfg5 : Config :=
  { k8s_namespace_name := "default", skip_delete_events := none, reasons_to_skip := [],
    users_to_notify := "", slack_web_hook_url := "http://hook", entity_blacklist := [] }

/-- Defaulted configuration with one blacklist pattern. -/
def cfgBlack : Config := { cfg5 with entity_blacklist := [re_compile "db-.*"] }

/-- Defaulted configuration with a reason skip list and a blacklist. -/
def cfgW : Config :=
  { cfg5 with reasons_to_skip := ["Killing"], entity_blacklist := [re_compile "worker-.*"] }

/-- Defaulted configuration with `skip_delete_events` set to the raw string
`false`, as `readConfig envSkip` produces. -/
def cfgSkipFalse : Config := { cfg5 with skip_delete_events := some "false" }

/-- The JSON message built for `warnEvent` with notify target `@ops`. -/
def warnJson : Json :=
  (format_k8s_event_to_slack_message_json envFull warnEvent "@ops").toOption.getD .null

/-- The JSON message built for `normalEvent` with no notify target. -/
def normalJson : Json :=
  (format_k8s_event_to_slack_message_json envFull normalEvent "").toOption.getD .null

/-- The embedded `re.search` is unanchored: `worker-.*` matches the whole
name `worker-node-7`, `de-7` matches strictly inside it, and `worker-.*`
finds nothing in `web-1`. -/
theorem re_search_partial_match_examples :
    re_search (re_compile "worker-.*") "worker-node-7" = true ∧
    re_search (re_compile "de-7") "worker-node-7" = true ∧
    re_search (re_compile "worker-.*") "web-1" = false :=
  ⟨rfl, rfl, rfl⟩

/-- Claim C1, counterexample: for the Warning event `warnEvent` with
non-empty notify target `@ops`, the attachment's `text` is still the
cluster/type/reason line and differs from the claimed override string: line
69 of the source assigns `message['text']`, a top-level dict key, not
`message['attachments'][0]['text']`, so the attachment text is NOT replaced. -/
theorem C1_counterexample :
    (firstAttachment warnJson).bind (fun a => a.getKey "text") =
      some (.str "clusterX - event type: MODIFIED, event reason: FailedScheduling") ∧
    "clusterX - event type: MODIFIED, event reason: FailedScheduling" ≠
      "@ops there is a warning for you to check" :=
  ⟨rfl, by decide⟩

/-- Claim C1 as amended: for every event whose object type is `Warning` and
every non-empty notify target, the attachment's color is `#cc4d26`, the
attachment's `text` KEEPS the cluster/type/reason line, and the override
string `<notifyTarget> there is a warning for you to check` is written to a
new top-level `text` key of the payload instead of the attachment's text. -/
theorem C1_warning_notify_text_override (env : Env) (e : RawEvent) (notify : String)
    (j : Json) (cname : String)
    (hw : e.object.type = some "Warning") (hnot : notify ≠ "")
    (hcl : cluster_name env = .ok cname)
    (h : format_k8s_event_to_slack_message_json env e notify = .ok j) :
    (firstAttachment j).bind (fun a => a.getKey "color") = some (.str "#cc4d26") ∧
    (firstAttachment j).bind (fun a => a.getKey "text") =
      some (.str (cname ++ " - event type: " ++ e.type ++ ", event reason: " ++
        pyFormatStr e.object.reason)) ∧
    j.getKey "text" = some (.str (notify ++ " there is a warning for you to check")) := by
  obtain ⟨creation, cname', fs, ls, hc, hn, hf, hl, hj⟩ := format_json_ok_inv env e notify j h
  have hcc : cname' = cname := by rw [hcl] at hn; exact (Except.ok.inj hn).symm
  subst hcc
  subst hj
  rw [if_pos ⟨hw, hnot⟩]
  refine ⟨?_, rfl, ?_⟩
  · rw [hw]; rfl
  · rfl

/-- Claim C1 witness: the amended behavior at the concrete Warning event
with notify target `@ops`. -/
theorem C1_warning_notify_text_override_witness :
    (firstAttachment warnJson).bind (fun a => a.getKey "color") = some (.str "#cc4d26") ∧
    (firstAttachment warnJson).bind (fun a => a.getKey "text") =
      some (.str "clusterX - event type: MODIFIED, event reason: FailedScheduling") ∧
    warnJson.getKey "text" = some (.str "@ops there is a warning for you to check") :=
  C1_warning_notify_text_override envFull warnEvent "@ops" warnJson "clusterX"
    rfl (by decide) rfl rfl

/-- Claim C2: for every well-formed event (entity name and reason present)
and every configuration, the filter chain accepts the event exactly when
none of the three rejection rules fires: (1) the watch type is `DELETED`
with skip-delete enabled, (2) the reason is in the skip list, (3) some
blacklist pattern has an (unanchored) search match in the entity name. -/
theorem C2_filter_chain_accepts_iff (cfg : Config) (e : RawEvent) (nm r : String)
    (hname : e.object.metadata.name = some nm)
    (hreason : e.object.reason = some r) :
    filter_chain cfg e = .ok true ↔
      (¬(e.type = "DELETED" ∧ skip_delete_enabled cfg.skip_delete_events = true) ∧
       r ∉ cfg.reasons_to_skip ∧
       ∀ p ∈ cfg.entity_blacklist, re_search p nm = false) := by
  unfold filter_chain
  rw [show event_entity_name e = some nm from hname]
  rw [blacklistCheck_some]
  unfold is_message_type_delete is_reason_in_skip_list
  rw [hreason]
  split_ifs with h1 h2
  · simp only [Bool.and_eq_true, decide_eq_true_eq] at h1
    constructor
    · intro hfalse; exact absurd hfalse (by simp)
    · intro ⟨ha, _, _⟩; exact absurd h1 ha
  · constructor
    · intro hfalse; exact absurd hfalse (by simp)
    · intro ⟨_, hb, _⟩; exact absurd (by simpa using h2) hb
  · simp only [Bool.and_eq_true, decide_eq_true_eq] at h1
    constructor
    · intro hok
      refine ⟨h1, by simpa using h2, ?_⟩
      intro p hp
      by_contra hmatch
      have hany : cfg.entity_blacklist.any (fun p => re_search p nm) = true :=
        List.any_eq_true.mpr ⟨p, hp, by simpa using hmatch⟩
      rw [hany] at hok
      simp at hok
    · intro ⟨_, _, hall⟩
      have hnone : cfg.entity_blacklist.any (fun p => re_search p nm) = false := by
        rw [List.any_eq_false]
        intro p hp
        simpa using hall p hp
      rw [hnone]
      rfl

/-- Claim C2 witness: the accept-iff equivalence at a concrete
configuration carrying a reason skip list and a blacklist pattern, on the
well-formed event named `web-1` with reason `Scheduled`. -/
theorem C2_filter_chain_accepts_iff_witness :
    filter_chain cfgW normalEvent = .ok true ↔
      (¬(normalEvent.type = "DELETED" ∧ skip_delete_enabled cfgW.skip_delete_events = true) ∧
       "Scheduled" ∉ cfgW.reasons_to_skip ∧
       ∀ p ∈ cfgW.entity_blacklist, re_search p "web-1" = false) :=
  C2_filter_chain_accepts_iff cfgW normalEvent "web-1" "Scheduled" rfl rfl

/-- Claim C3 is refuted by the code: a connection error raised while
posting is NOT caught — `post_slack_message` has no try/except, so the
error propagates out of the delivery step, out of the loop body, and
crashes the watch loop before the next event is processed. -/
theorem C3_delivery_error_propagates :
    post_slack_message netFail "m" = .error (.connectionError "connection refused") ∧
    processEvent cfg5 envFull netFail normalEvent =
      .error (.connectionError "connection refused") ∧
    watchStep streams1 cfg5 envFull netFail ⟨0, .streaming [normalEvent, normalEvent]⟩ =
      ⟨0, .crashed (.connectionError "connection refused")⟩ :=
  ⟨rfl, rfl, rfl⟩

/-- Claim C4 is refuted by the code: an event missing `object.metadata.name`
makes `re.search(pattern, None)` raise `TypeError` inside the filter chain
(whenever the blacklist is non-empty); nothing catches it, so the malformed
event terminates the watch loop instead of being logged and skipped. -/
theorem C4_missing_field_crashes_loop :
    event_entity_name namelessEvent = none ∧
    processEvent cfgBlack envFull netOk namelessEvent =
      .error (.typeError "expected string or bytes-like object, got NoneType") ∧
    watchStep streams1 cfgBlack envFull netOk ⟨0, .streaming [namelessEvent, normalEvent]⟩ =
      ⟨0, .crashed (.typeError "expected string or bytes-like object, got NoneType")⟩ :=
  ⟨rfl, rfl, rfl⟩

/-- Claim C5, counterexample: with the webhook URL set but the cluster name
UNSET, startup configuration reading succeeds (the cluster name is never
read at startup), the first event passes the filter chain, and only then
does formatting raise the EnvironmentError — so the process does NOT fail
at startup before any event is processed. -/
theorem C5_counterexample :
    readConfig env5 = .ok cfg5 ∧
    filter_chain cfg5 normalEvent = .ok true ∧
    processEvent cfg5 env5 netOk normalEvent = .error (.environmentError
      "Env variable K8S_EVENTS_STREAMER_CLUSTER_NAME is not defined or set to empty string. Set it to non-empty string and try again") :=
  ⟨by rfl, rfl, rfl⟩

/-- Claim C5 as amended: the webhook URL is the value validated at startup —
when it is absent or empty, configuration reading fails with a message
naming it; the cluster name is not read at startup — when it is absent or
empty, formatting any accepted event raises an EnvironmentError naming the
cluster variable, so no payload of such an event is ever delivered, but the
failure is per-event at format time, not at startup. -/
theorem C5_required_config_failure_modes (env : Env) (e : RawEvent) (notify : String)
    (d : Datetime)
    (hcl : os_environ_get env "K8S_EVENTS_STREAMER_CLUSTER_NAME" "" = "")
    (hcr : e.object.metadata.creation_timestamp = some d) :
    (os_environ_get env "K8S_EVENTS_STREAMER_INCOMING_WEB_HOOK_URL" "" = "" →
      readConfig env = .error (.environmentError
        ("Env variable K8S_EVENTS_STREAMER_INCOMING_WEB_HOOK_URL" ++
         " is not defined or set to empty string. Set it to non-empty string and try again"))) ∧
    format_k8s_event_to_slack_message env e notify = .error (.environmentError
      ("Env variable K8S_EVENTS_STREAMER_CLUSTER_NAME" ++
       " is not defined or set to empty string. Set it to non-empty string and try again")) ∧
    (∀ (cfg : Config) (net : String → Except PyErr Unit) (m : String),
      processEvent cfg env net e ≠ .ok (some m)) := by
  have hclname : cluster_name env = .error (.environmentError
      ("Env variable K8S_EVENTS_STREAMER_CLUSTER_NAME" ++
       " is not defined or set to empty string. Set it to non-empty string and try again")) := by
    unfold cluster_name read_env_variable_or_die
    rw [hcl]
    rfl
  have hfmt : ∀ nt : String, format_k8s_event_to_slack_message env e nt = .error (.environmentError
      ("Env variable K8S_EVENTS_STREAMER_CLUSTER_NAME" ++
       " is not defined or set to empty string. Set it to non-empty string and try again")) := by
    intro nt
    unfold format_k8s_event_to_slack_message format_k8s_event_to_slack_message_json
    dsimp only
    rw [hcr, hclname]
    rfl
  refine ⟨?_, hfmt notify, ?_⟩
  · intro hhook
    unfold readConfig read_env_variable_or_die
    rw [hhook]
    rfl
  · intro cfg net m
    unfold processEvent
    cases hfc : filter_chain cfg e with
    | error err => simp
    | ok b =>
      cases b with
      | false => simp
      | true =>
        rw [hfmt cfg.users_to_notify]
        simp

/-- Claim C5 witness: with nothing set, startup fails naming the webhook
URL; with the cluster name missing, formatting the concrete event raises
the error naming the cluster variable and processing never delivers. -/
theorem C5_required_config_failure_modes_witness :
    readConfig envNone = .error (.environmentError
      "Env variable K8S_EVENTS_STREAMER_INCOMING_WEB_HOOK_URL is not defined or set to empty string. Set it to non-empty string and try again") ∧
    format_k8s_event_to_slack_message envNone normalEvent "" = .error (.environmentError
      "Env variable K8S_EVENTS_STREAMER_CLUSTER_NAME is not defined or set to empty string. Set it to non-empty string and try again") ∧
    processEvent cfg5 envNone netOk normalEvent ≠ .ok (some "x") :=
  ⟨(C5_required_config_failure_modes envNone normalEvent "" dt0 rfl rfl).1 rfl,
   (C5_required_config_failure_modes envNone normalEvent "" dt0 rfl rfl).2.1,
   (C5_required_config_failure_modes envNone normalEvent "" dt0 rfl rfl).2.2 cfg5 netOk "x"⟩

/-- Claim C6: at every iteration, a terminated (drained) stream — including
one that yielded zero events — sends the loop to the idle-wait state with
the fixed 30-second interval (the same 30 at every iteration: fixed, not
exponential); idle-wait always re-opens the watch for the next iteration
and resumes streaming; and a successfully processed event keeps the loop
streaming, so normal operation never reaches a terminal state. -/
theorem C6_watch_loop_reconnects (streams : Nat → List RawEvent) (cfg : Config)
    (env : Env) (net : String → Except PyErr Unit) (n secs : Nat) (e : RawEvent)
    (rest : List RawEvent) (res : Option String)
    (hok : processEvent cfg env net e = .ok res) :
    watchStep streams cfg env net ⟨n, .streaming []⟩ = ⟨n, .idleWait 30⟩ ∧
    watchStep streams cfg env net ⟨n, .idleWait secs⟩ =
      ⟨n + 1, .streaming (streams (n + 1))⟩ ∧
    watchStep streams cfg env net ⟨n, .streaming (e :: rest)⟩ = ⟨n, .streaming rest⟩ := by
  refine ⟨rfl, rfl, ?_⟩
  simp only [watchStep]
  rw [hok]

/-- Claim C6 witness: the empty stream at iteration 0 idles for 30 seconds,
re-opens, and a successfully processed event keeps streaming. -/
theorem C6_watch_loop_reconnects_witness :
    watchStep streams1 cfg5 envFull netOk ⟨0, .streaming []⟩ = ⟨0, .idleWait 30⟩ ∧
    watchStep streams1 cfg5 envFull netOk ⟨0, .idleWait 30⟩ = ⟨1, .streaming []⟩ ∧
    watchStep streams1 cfg5 envFull netOk ⟨0, .streaming [normalEvent]⟩ =
      ⟨0, .streaming []⟩ :=
  C6_watch_loop_reconnects streams1 cfg5 envFull netOk 0 30 normalEvent []
    ((processEvent cfg5 envFull netOk normalEvent).toOption.getD none) rfl

/-- Claim C7: every successfully formatted event carries attachment color
`#cc4d26` when the event object's type is `Warning` and `#36a64f`
otherwise — the color is fully determined by that single test, so no other
value is ever produced. -/
theorem C7_attachment_color (env : Env) (e : RawEvent) (notify : String) (j : Json)
    (h : format_k8s_event_to_slack_message_json env e notify = .ok j) :
    (firstAttachment j).bind (fun a => a.getKey "color") =
      some (.str (if e.object.type = some "Warning" then "#cc4d26" else "#36a64f")) := by
  obtain ⟨creation, cname, fs, ls, hc, hn, hf, hl, hj⟩ := format_json_ok_inv env e notify j h
  subst hj
  by_cases hcond : e.object.type = some "Warning" ∧ notify ≠ ""
  · rw [if_pos hcond]; rfl
  · rw [if_neg hcond]; rfl

/-- Claim C7 witness: the concrete non-warning event formats with color
`#36a64f`. -/
theorem C7_attachment_color_witness :
    (firstAttachment normalJson).bind (fun a => a.getKey "color") = some (.str "#36a64f") :=
  C7_attachment_color envFull normalEvent "" normalJson rfl

/-- Claim C8: every successfully formatted event has exactly four field
entries, in the fixed order Namespace, Name, Creation, Kind, and every
entry's `short` member is the literal STRING `true` — never the JSON
boolean. -/
theorem C8_fields_order_and_short_string (env : Env) (e : RawEvent) (notify : String)
    (j : Json) (h : format_k8s_event_to_slack_message_json env e notify = .ok j) :
    ∃ flds : List Json,
      (firstAttachment j).bind (fun a => a.getKey "fields") = some (.arr flds) ∧
      flds.length = 4 ∧
      flds.map (fun f => f.getKey "title") =
        [some (.str "Namespace"), some (.str "Name"),
         some (.str "Creation"), some (.str "Kind")] ∧
      ∀ f ∈ flds, f.getKey "short" = some (.str "true") ∧
        f.getKey "short" ≠ some (.bool true) := by
  obtain ⟨creation, cname, fs, ls, hc, hn, hf, hl, hj⟩ := format_json_ok_inv env e notify j h
  subst hj
  by_cases hcond : e.object.type = some "Warning" ∧ notify ≠ ""
  · rw [if_pos hcond]
    refine ⟨_, rfl, rfl, rfl, ?_⟩
    intro f hf
    fin_cases hf <;>
      exact ⟨rfl, fun hbad => Json.noConfusion (Option.some.inj hbad)⟩
  · rw [if_neg hcond]
    refine ⟨_, rfl, rfl, rfl, ?_⟩
    intro f hf
    fin_cases hf <;>
      exact ⟨rfl, fun hbad => Json.noConfusion (Option.some.inj hbad)⟩

/-- Claim C8 witness: the four fields of the concrete formatted event. -/
theorem C8_fields_order_and_short_string_witness :
    ∃ flds : List Json,
      (firstAttachment normalJson).bind (fun a => a.getKey "fields") = some (.arr flds) ∧
      flds.length = 4 ∧
      flds.map (fun f => f.getKey "title") =
        [some (.str "Namespace"), some (.str "Name"),
         some (.str "Creation"), some (.str "Kind")] ∧
      ∀ f ∈ flds, f.getKey "short" = some (.str "true") ∧
        f.getKey "short" ≠ some (.bool true) :=
  C8_fields_order_and_short_string envFull normalEvent "" normalJson rfl

/-- Claim C9: the formatter is deterministic — two runs on the same raw
event and notify target whose environments resolve the cluster name
identically produce byte-identical serialized payloads (the environment is
consulted only through `cluster_name`). -/
theorem C9_formatter_deterministic (env1 env2 : Env) (e : RawEvent) (notify : String)
    (h : cluster_name env1 = cluster_name env2) :
    format_k8s_event_to_slack_message env1 e notify =
      format_k8s_event_to_slack_message env2 e notify := by
  unfold format_k8s_event_to_slack_message format_k8s_event_to_slack_message_json
  rw [h]

/-- Claim C9 witness: two environments differing in webhook URL and
namespace but agreeing on the cluster name serialize the same event to the
same bytes. -/
theorem C9_formatter_deterministic_witness :
    cluster_name envFull = cluster_name env9 ∧
    format_k8s_event_to_slack_message envFull normalEvent "" =
      format_k8s_event_to_slack_message env9 normalEvent "" :=
  ⟨rfl, C9_formatter_deterministic envFull env9 normalEvent "" rfl⟩

/-- Claim C10: whenever `K8S_EVENTS_STREAMER_SKIP_DELETE_EVENTS` is set to
ANY string value `s` — `'false'` and `'0'` included — the configuration
records the raw string, every `DELETED` event is skipped by the filter
chain (the loop compares the raw value against the boolean `False`, it
never parses it), and skipping is disabled exactly in the unset-default
case, where the raw value is the Python `False` itself. -/
theorem C10_skip_delete_raw_string_compare (env : Env) (s : String) (cfg : Config)
    (e : RawEvent)
    (hset : env "K8S_EVENTS_STREAMER_SKIP_DELETE_EVENTS" = some s)
    (hcfg : readConfig env = .ok cfg)
    (hdel : e.type = "DELETED") :
    cfg.skip_delete_events = some s ∧
    filter_chain cfg e = .ok false ∧
    (∀ (env2 : Env) (cfg2 : Config),
      env2 "K8S_EVENTS_STREAMER_SKIP_DELETE_EVENTS" = none →
      readConfig env2 = .ok cfg2 →
      skip_delete_enabled cfg2.skip_delete_events = false) := by
  have hskip : cfg.skip_delete_events = some s := by
    unfold readConfig at hcfg
    split at hcfg
    · exact Except.noConfusion hcfg
    · have hinj := Except.ok.inj hcfg
      rw [← hinj, hset]
  refine ⟨hskip, ?_, ?_⟩
  · unfold filter_chain
    rw [if_pos]
    unfold is_message_type_delete skip_delete_enabled
    rw [hdel, hskip]
    rfl
  · intro env2 cfg2 hunset hcfg2
    unfold readConfig at hcfg2
    split at hcfg2
    · exact Except.noConfusion hcfg2
    · have hinj := Except.ok.inj hcfg2
      rw [← hinj]
      unfold skip_delete_enabled
      rw [hunset]
      rfl

/-- Claim C10 witness: the environment value `false` still skips the
concrete `DELETED` event, while the unset default leaves skipping off. -/
theorem C10_skip_delete_raw_string_compare_witness :
    cfgSkipFalse.skip_delete_events = some "false" ∧
    filter_chain cfgSkipFalse deletedEvent = .ok false ∧
    skip_delete_enabled cfg5.skip_delete_events = false :=
  ⟨(C10_skip_delete_raw_string_compare envSkip "false" cfgSkipFalse deletedEvent
      rfl (by rfl) rfl).1,
   (C10_skip_delete_raw_string_compare envSkip "false" cfgSkipFalse deletedEvent
      rfl (by rfl) rfl).2.1,
   (C10_skip_delete_raw_string_compare envSkip "false" cfgSkipFalse deletedEvent
      rfl (by rfl) rfl).2.2 env5 cfg5 rfl (by rfl)⟩
